import Mathlib

/-!
Verification development for the vm-balancer repository.

The Python sources are shallowly embedded: dataclasses become structures,
float arithmetic is modelled over the rationals, datetimes over the integers
(seconds), dictionaries over association lists, and code that can raise a
Python exception returns an Except value.  The in-place mutation that
balance_cluster performs on the shared NodeInfo objects is modelled by
threading an explicit node store keyed by node id.
-/

set_option maxHeartbeats 1000000
set_option maxRecDepth 100000
set_option synthInstance.maxSize 2000

instance {ε α : Type} [DecidableEq ε] [DecidableEq α] : DecidableEq (Except ε α) :=
  fun a b =>
    match a, b with
    | .ok x, .ok y => decidable_of_iff (x = y) (by simp)
    | .error x, .error y => decidable_of_iff (x = y) (by simp)
    | .ok _, .error _ => isFalse (by simp)
    | .error _, .ok _ => isFalse (by simp)

namespace VMB

/-- Stable insertion into an ascending-sorted list: x goes in front of the
first element it is less-or-equal to.  Together with insertionSort this
models the stable ascending sort of Python list.sort. -/
def insertLe {α : Type} (le : α → α → Bool) (x : α) : List α → List α
  | [] => [x]
  | y :: ys => if le x y then x :: y :: ys else y :: insertLe le x ys

/-- Stable ascending sort, as Python list.sort with a key: an earlier element
precedes a later one whose key is equal. -/
def insertionSort {α : Type} (le : α → α → Bool) : List α → List α
  | [] => []
  | x :: xs => insertLe le x (insertionSort le xs)

/-- Embeds the dataclass VMInfo of vm_balancer.py. -/
structure VMInfo where
  id : String
  name : String
  node_id : String
  cpu_cores : Int
  memory_mb : Int
  state : String
  can_migrate : Bool
deriving DecidableEq, Repr

/-- Embeds the dataclass NodeInfo of vm_balancer.py. -/
structure NodeInfo where
  id : String
  name : String
  cpu_total : Int
  cpu_used : Int
  memory_total_mb : Int
  memory_used_mb : Int
  vm_count : Int
  is_maintenance : Bool
  vm_creation_allowed : Bool
  vm_limit : Int
  qemu_version : String
deriving DecidableEq, Repr, Inhabited

/-- NodeInfo.cpu_allocation_ratio: cpu_used / cpu_total, 0 when cpu_total is
not positive (vm_balancer.py lines 90-93). -/
def NodeInfo.cpu_allocation_ratio (n : NodeInfo) : ℚ :=
  if 0 < n.cpu_total then (n.cpu_used : ℚ) / (n.cpu_total : ℚ) else 0

/-- NodeInfo.memory_usage_percent: memory_used_mb / memory_total_mb * 100,
0 when the denominator is not positive (vm_balancer.py lines 95-98). -/
def NodeInfo.memory_usage_percent (n : NodeInfo) : ℚ :=
  if 0 < n.memory_total_mb then
    (n.memory_used_mb : ℚ) / (n.memory_total_mb : ℚ) * 100
  else 0

/-- NodeInfo.can_accept_vms (vm_balancer.py lines 109-113). -/
def NodeInfo.can_accept_vms (n : NodeInfo) : Bool :=
  let vm_limit_ok := decide (n.vm_limit ≤ 0) || decide (n.vm_count < n.vm_limit)
  !n.is_maintenance && n.vm_creation_allowed && vm_limit_ok

/-- The balancer configuration of VMBalancer.__init__ (vm_balancer.py
lines 491-507), restricted to the fields the balancing logic reads. -/
structure Config where
  cpu_overload_threshold : ℚ
  memory_overload_threshold : ℚ
  cpu_target_threshold : ℚ
  memory_target_threshold : ℚ
  excluded_source_nodes : List String
  excluded_target_nodes : List String
  max_migrations_per_cycle : Nat
  dry_run : Bool
deriving DecidableEq, Repr

/-- The defaults of VMBalancer.__init__. -/
def defaultConfig : Config :=
  ⟨7, 70, 6, 80, [], [], 1, false⟩

namespace VMManagerAPI

/-- Value of a string of decimal digits, as Python int() of the digit run. -/
def digitsToNat (ds : List Char) : Nat :=
  ds.foldl (fun a c => a * 10 + (c.toNat - 48)) 0

/-- The whitespace characters Python str.strip removes. -/
def isPySpace (c : Char) : Bool :=
  c = ' ' || c = '\t' || c = '\n' || c = '\r' || c = '\x0b' || c = '\x0c'

/-- Python str.strip at the character-list level. -/
def stripChars (cs : List Char) : List Char :=
  ((cs.dropWhile isPySpace).reverse.dropWhile isPySpace).reverse

/-- After the first digit group, the regex (?:\.\d+)* of parse_version keeps
consuming a dot followed by at least one digit; a dot with no digit after it
is left unconsumed.  Fuel is the length of the remaining character list. -/
def parseDotted : Nat → List Char → List Nat
  | 0, _ => []
  | _ + 1, [] => []
  | fuel + 1, c :: rest =>
    if c = '.' then
      let p := rest.span (·.isDigit)
      if p.1.isEmpty then [] else digitsToNat p.1 :: parseDotted fuel p.2
    else []

/-- parse_version inside compare_qemu_versions (vm_balancer.py lines 465-471):
re.match of (\d+(?:\.\d+)*) on the stripped string; no leading digit gives
the tuple (0,). -/
def parse_version (s : String) : List Nat :=
  let cs := stripChars s.toList
  let p := cs.span (·.isDigit)
  if p.1.isEmpty then [0]
  else digitsToNat p.1 :: parseDotted p.2.length p.2

/-- Python tuple comparison a >= b: lexicographic, a strict prefix is
smaller. -/
def tupleGe : List Nat → List Nat → Bool
  | _, [] => true
  | [], _ :: _ => false
  | a :: as, b :: bs => if b < a then true else if a < b then false else tupleGe as bs

/-- VMManagerAPI.compare_qemu_versions (vm_balancer.py lines 456-486): true
when either version string is empty, otherwise true exactly when the parsed
target tuple is at least the parsed source tuple. -/
def compare_qemu_versions (source_version target_version : String) : Bool :=
  if source_version = "" || target_version = "" then true
  else tupleGe (parse_version target_version) (parse_version source_version)

/-- A raw VM record from the remote inventory, restricted to the keys
can_vm_migrate reads; a missing key is none. -/
structure VMData where
  name : String
  state : Option String
  iso_mounted : Option Bool
  snapshot_count : Option Int
  balancer_mode : Option String
deriving DecidableEq, Repr

/-- VMManagerAPI.can_vm_migrate (vm_balancer.py lines 331-360).  Python
str.lower is modelled on ASCII letters. -/
def can_vm_migrate (d : VMData) : Bool :=
  let state := ((d.state.getD "").map Char.toLower)
  if state ≠ "active" then false
  else
    let has_iso := d.iso_mounted.getD false
    let has_snapshots := decide (0 < d.snapshot_count.getD 0)
    let balancer_disabled := (d.balancer_mode.getD "off") = "off"
    if has_iso then false
    else if has_snapshots then false
    else if balancer_disabled then false
    else true

end VMManagerAPI

namespace VMBalancer

/-- Python datetime.min, as seconds relative to the Unix epoch. -/
def datetimeMin : Int := -62135596800

/-- First value under a key in an association list; dict assignment is
modelled by prepending, so the first hit is the current value. -/
def histLookup (h : List (String × Int)) (id : String) : Option Int :=
  (h.find? (fun p => p.1 == id)).map (·.2)

/-- self.migration_history.get(vm.id, datetime.min). -/
def histGet (h : List (String × Int)) (id : String) : Int :=
  (histLookup h id).getD datetimeMin

/-- VMBalancer.find_overloaded_nodes (vm_balancer.py lines 525-541): drop
excluded and maintenance nodes, keep those over either overload threshold,
and sort descending by max(cpu_allocation_ratio, memory_usage_percent)
(the key of the sort call on line 540). -/
def find_overloaded_nodes (cfg : Config) (nodes : List NodeInfo) : List NodeInfo :=
  let overloaded := nodes.filter fun n =>
    !(cfg.excluded_source_nodes.contains n.name
        || cfg.excluded_source_nodes.contains n.id)
    && !n.is_maintenance
    && (decide (cfg.cpu_overload_threshold < n.cpu_allocation_ratio)
        || decide (cfg.memory_overload_threshold < n.memory_usage_percent))
  insertionSort (fun a b =>
    decide (max b.cpu_allocation_ratio b.memory_usage_percent
      ≤ max a.cpu_allocation_ratio a.memory_usage_percent)) overloaded

/-- VMBalancer.find_underloaded_nodes (vm_balancer.py lines 543-587): drop
excluded targets, keep nodes that can accept VMs and sit under both target
thresholds, sorted ascending by (cpu_allocation_ratio,
memory_usage_percent). -/
def find_underloaded_nodes (cfg : Config) (nodes : List NodeInfo) : List NodeInfo :=
  let underloaded := nodes.filter fun n =>
    !(cfg.excluded_target_nodes.contains n.name
        || cfg.excluded_target_nodes.contains n.id)
    && n.can_accept_vms
    && decide (n.cpu_allocation_ratio < cfg.cpu_target_threshold)
    && decide (n.memory_usage_percent < cfg.memory_target_threshold)
  insertionSort (fun a b =>
    decide (a.cpu_allocation_ratio < b.cpu_allocation_ratio
      ∨ (a.cpu_allocation_ratio = b.cpu_allocation_ratio
          ∧ a.memory_usage_percent ≤ b.memory_usage_percent))) underloaded

/-- The sort key of select_vm_for_migration: cpu_cores + memory_mb / 1024. -/
def vmSizeKey (vm : VMInfo) : ℚ :=
  (vm.cpu_cores : ℚ) + (vm.memory_mb : ℚ) / 1024

/-- VMBalancer.select_vm_for_migration (vm_balancer.py lines 589-627): VMs on
the source node that can migrate, minus those with a migration_history entry
within the last hour, smallest size key first. -/
def select_vm_for_migration (hist : List (String × Int)) (now : Int)
    (vms : List VMInfo) (source_node : NodeInfo) : Option VMInfo :=
  let all_vms_on_node := vms.filter (fun vm => vm.node_id == source_node.id)
  let candidates := all_vms_on_node.filter (·.can_migrate)
  if candidates.isEmpty then none
  else
    let recent_cutoff := now - 3600
    let recent_candidates :=
      candidates.filter (fun vm => decide (histGet hist vm.id < recent_cutoff))
    if recent_candidates.isEmpty then none
    else
      (insertionSort (fun a b => decide (vmSizeKey a ≤ vmSizeKey b))
        recent_candidates).head?

/-- VMBalancer.get_source_node_for_vm (vm_balancer.py lines 664-672). -/
def get_source_node_for_vm (nodes : List NodeInfo) (vm : VMInfo) :
    Option NodeInfo :=
  nodes.find? (fun n => n.id == vm.node_id)

/-- The qemu_ok computation of VMBalancer.can_node_accept_vm (vm_balancer.py
lines 638-655): compare versions only when the source node is found and both
version strings are non-empty, otherwise pass. -/
def qemu_gate (nodes : List NodeInfo) (node : NodeInfo) (vm : VMInfo) : Bool :=
  match get_source_node_for_vm nodes vm with
  | some source_node =>
    if node.qemu_version ≠ "" && source_node.qemu_version ≠ "" then
      VMManagerAPI.compare_qemu_versions source_node.qemu_version node.qemu_version
    else true
  | none => true

/-- VMBalancer.can_node_accept_vm continued: the two estimates and the three
conjuncts of the return on line 662.  The divisions on lines 632-633 raise
ZeroDivisionError in Python when a denominator is zero, in that order. -/
def can_node_accept_vm (cfg : Config) (nodes : List NodeInfo)
    (node : NodeInfo) (vm : VMInfo) : Except String Bool :=
  if node.cpu_total = 0 then .error "ZeroDivisionError"
  else
    let estimated_cpu_ratio : ℚ :=
      ((node.cpu_used : ℚ) + (vm.cpu_cores : ℚ)) / (node.cpu_total : ℚ)
    if node.memory_total_mb = 0 then .error "ZeroDivisionError"
    else
      let estimated_memory : ℚ :=
        node.memory_usage_percent
          + ((vm.memory_mb : ℚ) / (node.memory_total_mb : ℚ) * 100)
      let cpu_ok := decide (estimated_cpu_ratio < cfg.cpu_overload_threshold)
      let memory_ok := decide (estimated_memory < cfg.memory_overload_threshold)
      .ok (cpu_ok && memory_ok && qemu_gate nodes node vm)

/-- Current state of a node in the store, looked up by id. -/
def getNode (nodes : List NodeInfo) (id : String) : NodeInfo :=
  (nodes.find? (fun n => n.id == id)).getD default

/-- In-place field mutation of the shared NodeInfo object with the given id. -/
def updateNode (nodes : List NodeInfo) (id : String) (f : NodeInfo → NodeInfo) :
    List NodeInfo :=
  nodes.map (fun n => if n.id == id then f n else n)

/-- The two vm_count updates after a successful or simulated migration
(vm_balancer.py lines 756-757 and 766-767). -/
def projectVmCount (nodes : List NodeInfo) (srcId tgtId : String) :
    List NodeInfo :=
  updateNode (updateNode nodes srcId (fun n => { n with vm_count := n.vm_count - 1 }))
    tgtId (fun n => { n with vm_count := n.vm_count + 1 })

/-- VMBalancer.find_target_node (vm_balancer.py lines 674-679), iterating the
remaining underloaded node ids against the current node store. -/
def find_target_node (cfg : Config) (nodes : List NodeInfo) (vm : VMInfo) :
    List String → Except String (Option NodeInfo)
  | [] => .ok none
  | tid :: rest =>
    match can_node_accept_vm cfg nodes (getNode nodes tid) vm with
    | .error e => .error e
    | .ok true => .ok (some (getNode nodes tid))
    | .ok false => find_target_node cfg nodes vm rest

/-- The mutable state of one balance_cluster call: the migration counter, the
node store, the remaining underloaded node ids, the migration history and the
submitted (vm_id, target_node_id) migration calls, in order. -/
structure LoopState where
  performed : Nat
  nodes : List NodeInfo
  underloaded : List String
  hist : List (String × Int)
  submitted : List (String × String)
deriving DecidableEq, Repr

/-- The body of the source-node loop of balance_cluster (vm_balancer.py lines
726-773) for one source node, after the per-cycle cap was checked.  The
oracle gives the result of the n-th migrate_vm call of the cycle. -/
def balanceStep (cfg : Config) (oracle : Nat → Bool) (now : Int)
    (vms : List VMInfo) (srcId : String) (s : LoopState) :
    Except String LoopState :=
  match select_vm_for_migration s.hist now vms (getNode s.nodes srcId) with
  | none => .ok s
  | some vm =>
    match find_target_node cfg s.nodes vm s.underloaded with
    | .error e => .error e
    | .ok none => .ok s
    | .ok (some target_node) =>
      if cfg.dry_run then
        .ok { s with
          performed := s.performed + 1
          nodes := projectVmCount s.nodes srcId target_node.id }
      else if oracle s.submitted.length then
        let nodes1 := projectVmCount s.nodes srcId target_node.id
        let s2 : LoopState :=
          { performed := s.performed + 1
            nodes := nodes1
            underloaded := s.underloaded
            hist := (vm.id, now) :: s.hist
            submitted := s.submitted ++ [(vm.id, target_node.id)] }
        match can_node_accept_vm cfg nodes1 (getNode nodes1 target_node.id) vm with
        | .error e => .error e
        | .ok true => .ok s2
        | .ok false =>
          .ok { s2 with underloaded := s2.underloaded.erase target_node.id }
      else
        .ok { s with submitted := s.submitted ++ [(vm.id, target_node.id)] }

/-- The source-node loop of balance_cluster: before each iteration the break
on the per-cycle cap (vm_balancer.py lines 727-728) is checked. -/
def balanceLoop (cfg : Config) (oracle : Nat → Bool) (now : Int)
    (vms : List VMInfo) : List String → LoopState → Except String LoopState
  | [], s => .ok s
  | srcId :: rest, s =>
    if cfg.max_migrations_per_cycle ≤ s.performed then .ok s
    else
      match balanceStep cfg oracle now vms srcId s with
      | .error e => .error e
      | .ok s1 => balanceLoop cfg oracle now vms rest s1

/-- What one balance_cluster call returns and leaves behind: the return value
migrations_performed, the node snapshots, the migration history and the list
of migrate_vm calls made. -/
structure BalanceResult where
  performed : Nat
  nodes : List NodeInfo
  hist : List (String × Int)
  submitted : List (String × String)
deriving DecidableEq, Repr

/-- VMBalancer.balance_cluster (vm_balancer.py lines 681-778): compute
overloaded sources and underloaded targets, return 0 when either is empty,
otherwise run the capped migration loop over the sources. -/
def balance_cluster (cfg : Config) (oracle : Nat → Bool) (now : Int)
    (clusterNodes : List NodeInfo) (vms : List VMInfo)
    (hist : List (String × Int)) : Except String BalanceResult :=
  let overloaded_nodes := find_overloaded_nodes cfg clusterNodes
  let underloaded_nodes := find_underloaded_nodes cfg clusterNodes
  if overloaded_nodes.isEmpty || underloaded_nodes.isEmpty then
    .ok ⟨0, clusterNodes, hist, []⟩
  else
    match balanceLoop cfg oracle now vms (overloaded_nodes.map (·.id))
        ⟨0, clusterNodes, underloaded_nodes.map (·.id), hist, []⟩ with
    | .error e => .error e
    | .ok s => .ok ⟨s.performed, s.nodes, s.hist, s.submitted⟩

end VMBalancer

namespace MigrationStrategy

/-- Modelled from the spec: MIGRATION_HISTORY_RETENTION_HOURS lives in
src/vm_balancer/core/constants.py, which is not among the staged sources;
the spec fixes the H_success default at 1 hour. -/
def MIGRATION_HISTORY_RETENTION_HOURS : Int := 1

/-- Modelled from the spec: MIGRATION_BLACKLIST_RETENTION_HOURS lives in
src/vm_balancer/core/constants.py, which is not among the staged sources;
the spec design notes pick 1 hour, the same as H_success. -/
def MIGRATION_BLACKLIST_RETENTION_HOURS : Int := 1

/-- MigrationStrategy._filter_recently_migrated_vms (migration_strategy.py
lines 124-142): keep the candidates whose history timestamp is strictly
before now minus the retention window. -/
def filter_recently_migrated_vms (hist : List (String × Int)) (now : Int)
    (candidates : List VMInfo) : List VMInfo :=
  let recent_cutoff := now - 3600 * MIGRATION_HISTORY_RETENTION_HOURS
  candidates.filter (fun vm => decide (VMBalancer.histGet hist vm.id < recent_cutoff))

/-- MigrationStrategy._filter_blacklisted_vms (migration_strategy.py lines
144-163): keep the candidates whose blacklist timestamp is strictly before
now minus the retention window. -/
def filter_blacklisted_vms (blacklist : List (String × Int)) (now : Int)
    (candidates : List VMInfo) : List VMInfo :=
  let blacklist_cutoff := now - 3600 * MIGRATION_BLACKLIST_RETENTION_HOURS
  candidates.filter (fun vm => decide (VMBalancer.histGet blacklist vm.id < blacklist_cutoff))

/-- MigrationStrategy.record_migration_failure (migration_strategy.py lines
115-122): set blacklist[vm_id] to the current time. -/
def record_migration_failure (blacklist : List (String × Int))
    (vm_id : String) (now : Int) : List (String × Int) :=
  (vm_id, now) :: blacklist

/-- MigrationStrategy.select_vm_for_migration (migration_strategy.py lines
40-85): the monolithic selection plus the blacklist filter. -/
def select_vm_for_migration (hist blacklist : List (String × Int)) (now : Int)
    (vms : List VMInfo) (source_node : NodeInfo) : Option VMInfo :=
  let all_vms_on_node := vms.filter (fun vm => vm.node_id == source_node.id)
  let candidates := all_vms_on_node.filter (·.can_migrate)
  if candidates.isEmpty then none
  else
    let c1 := filter_recently_migrated_vms hist now candidates
    if c1.isEmpty then none
    else
      let c2 := filter_blacklisted_vms blacklist now c1
      if c2.isEmpty then none
      else
        (insertionSort
          (fun a b => decide (VMBalancer.vmSizeKey a ≤ VMBalancer.vmSizeKey b)) c2).head?

end MigrationStrategy

/-- The combined score the spec sorts overloaded sources by:
cpu_allocation_ratio + memory_usage_percent / 100.  Stated from the spec, to
be compared with the key find_overloaded_nodes actually uses. -/
def specCombinedScore (n : NodeInfo) : ℚ :=
  n.cpu_allocation_ratio + n.memory_usage_percent / 100

/-! ## Concrete fixtures for counterexamples and witnesses -/

/-- Scenario S1 source node A: 8 vCPUs allocated on 1 physical core (ratio
8.0), 40 percent memory, one VM. -/
def s1NodeA : NodeInfo := ⟨"A", "A", 1, 8, 100, 40, 1, false, true, 0, ""⟩

/-- Scenario S1 target node B: allocation ratio 0.0, 10 percent memory. -/
def s1NodeB : NodeInfo := ⟨"B", "B", 1, 0, 100, 10, 0, false, true, 0, ""⟩

/-- Scenario S1 VM x: 2 vCPUs, 4 GB, active and migratable, on node A. -/
def s1VM : VMInfo := ⟨"x", "x", "A", 2, 4, "active", true⟩

/-- The default configuration with dry_run set. -/
def dryConfig : Config := { defaultConfig with dry_run := true }

/-- A node overloaded by CPU only: ratio 8.0, memory 10 percent. -/
def mixNodeA : NodeInfo := ⟨"a", "a", 1, 8, 1000, 100, 1, false, true, 0, ""⟩

/-- A node overloaded by memory only: ratio 7.2, memory 75 percent. -/
def mixNodeB : NodeInfo := ⟨"b", "b", 10, 72, 1000, 750, 1, false, true, 0, ""⟩

/-- Node A after the simulated S1 migration: only vm_count changed. -/
def s1NodeA0 : NodeInfo := { s1NodeA with vm_count := 0 }

/-- Node B after the simulated S1 migration: only vm_count changed. -/
def s1NodeB1 : NodeInfo := { s1NodeB with vm_count := 1 }

/-- A target-eligible node with zero physical cores reported. -/
def zeroCpuNode : NodeInfo := ⟨"z", "z", 0, 0, 1000, 0, 0, false, true, 0, ""⟩

/-- An arbitrary migratable VM for the zero-core scenario. -/
def zeroCpuVM : VMInfo := ⟨"v", "v", "s", 1, 100, "active", true⟩

/-! ## Helper lemmas -/

/-- Python tuple comparison a >= b coincides with the negation of the strict
lexicographic order b > a on lists of naturals. -/
theorem tupleGe_iff_not_lex (a b : List Nat) :
    VMManagerAPI.tupleGe a b = true ↔ ¬ List.Lex (· < ·) a b := by
  induction a generalizing b with
  | nil =>
    cases b with
    | nil =>
      simp only [VMManagerAPI.tupleGe, true_iff]
      exact List.Lex.not_nil_right _ _
    | cons y ys =>
      simp only [VMManagerAPI.tupleGe]
      simp only [Bool.false_eq_true, false_iff, not_not]
      exact List.Lex.nil
  | cons x xs ih =>
    cases b with
    | nil =>
      simp only [VMManagerAPI.tupleGe, true_iff]
      exact List.Lex.not_nil_right _ _
    | cons y ys =>
      simp only [VMManagerAPI.tupleGe]
      rcases Nat.lt_trichotomy x y with hxy | hxy | hxy
      · have h1 : ¬ y < x := Nat.lt_asymm hxy
        simp only [if_neg h1, if_pos hxy, Bool.false_eq_true, false_iff, not_not]
        exact List.Lex.rel hxy
      · subst hxy
        have h1 : ¬ x < x := Nat.lt_irrefl x
        simp only [if_neg h1]
        rw [List.Lex.cons_iff]
        exact ih ys
      · simp only [if_pos hxy, true_iff]
        intro hlex
        cases hlex with
        | cons h => exact Nat.lt_irrefl _ hxy
        | rel h => exact Nat.lt_asymm hxy h

theorem mem_insertLe {α : Type} (le : α → α → Bool) (x a : α) (l : List α) :
    a ∈ insertLe le x l ↔ a = x ∨ a ∈ l := by
  induction l with
  | nil => simp [insertLe]
  | cons y ys ih =>
    simp only [insertLe]
    split
    · simp [List.mem_cons]
    · simp only [List.mem_cons, ih]
      tauto

theorem mem_insertionSort {α : Type} (le : α → α → Bool) (a : α) (l : List α) :
    a ∈ insertionSort le l ↔ a ∈ l := by
  induction l with
  | nil => simp [insertionSort]
  | cons x xs ih => simp [insertionSort, mem_insertLe, ih, List.mem_cons]

theorem pairwise_insertLe {α : Type} (le : α → α → Bool)
    (htrans : ∀ a b c, le a b = true → le b c = true → le a c = true)
    (htotal : ∀ a b, (le a b || le b a) = true) (x : α) (l : List α)
    (h : l.Pairwise (fun a b => le a b = true)) :
    (insertLe le x l).Pairwise (fun a b => le a b = true) := by
  induction l with
  | nil => simp [insertLe]
  | cons y ys ih =>
    rcases List.pairwise_cons.mp h with ⟨hy, hys⟩
    simp only [insertLe]
    split
    · rename_i hxy
      refine List.pairwise_cons.mpr ⟨?_, h⟩
      intro b hb
      rcases List.mem_cons.mp hb with rfl | hb
      · exact hxy
      · exact htrans x y b hxy (hy b hb)
    · rename_i hxy
      refine List.pairwise_cons.mpr ⟨?_, ih hys⟩
      intro b hb
      rcases (mem_insertLe le x b ys).mp hb with rfl | hb
      · have := htotal b y
        simp only [Bool.or_eq_true] at this
        rcases this with h1 | h1
        · exact absurd h1 hxy
        · exact h1
      · exact hy b hb

theorem pairwise_insertionSort {α : Type} (le : α → α → Bool)
    (htrans : ∀ a b c, le a b = true → le b c = true → le a c = true)
    (htotal : ∀ a b, (le a b || le b a) = true) (l : List α) :
    (insertionSort le l).Pairwise (fun a b => le a b = true) := by
  induction l with
  | nil => simp [insertionSort]
  | cons x xs ih => exact pairwise_insertLe le htrans htotal x _ ih

/-- A node with its vm_count field cleared: two nodes agree on every other
field exactly when their stripped forms are equal. -/
def stripVmCount (n : NodeInfo) : NodeInfo := { n with vm_count := 0 }

theorem map_strip_updateNode (nodes : List NodeInfo) (x : String)
    (f : NodeInfo → NodeInfo) (hf : ∀ n, stripVmCount (f n) = stripVmCount n) :
    (VMBalancer.updateNode nodes x f).map stripVmCount = nodes.map stripVmCount := by
  simp only [VMBalancer.updateNode, List.map_map]
  apply List.map_congr_left
  intro n _
  simp only [Function.comp_apply]
  split
  · exact hf n
  · rfl

theorem map_strip_projectVmCount (nodes : List NodeInfo) (a b : String) :
    (VMBalancer.projectVmCount nodes a b).map stripVmCount
      = nodes.map stripVmCount := by
  simp only [VMBalancer.projectVmCount]
  rw [map_strip_updateNode, map_strip_updateNode]
  · intro n; rfl
  · intro n; rfl

/-- Per-iteration facts about the balance loop body: the counter grows by at
most one, only vm_count fields of the node store change, a dry run touches
neither the submitted list nor the history, and a failed migration changes
neither the counter nor the history. -/
theorem balanceStep_ok_inv (cfg : Config) (oracle : Nat → Bool) (now : Int)
    (vms : List VMInfo) (srcId : String) (s s1 : VMBalancer.LoopState)
    (h : VMBalancer.balanceStep cfg oracle now vms srcId s = .ok s1) :
    s1.performed ≤ s.performed + 1
    ∧ s1.nodes.map stripVmCount = s.nodes.map stripVmCount
    ∧ (cfg.dry_run = true → s1.submitted = s.submitted ∧ s1.hist = s.hist)
    ∧ (cfg.dry_run = false → oracle s.submitted.length = false →
        s1.performed = s.performed ∧ s1.hist = s.hist) := by
  simp only [VMBalancer.balanceStep] at h
  split at h
  · cases h
    exact ⟨by omega, rfl, fun _ => ⟨rfl, rfl⟩, fun _ _ => ⟨rfl, rfl⟩⟩
  · split at h
    · exact Except.noConfusion h
    · cases h
      exact ⟨by omega, rfl, fun _ => ⟨rfl, rfl⟩, fun _ _ => ⟨rfl, rfl⟩⟩
    · split at h
      · rename_i hdry
        cases h
        refine ⟨by dsimp only; omega, map_strip_projectVmCount _ _ _, fun _ => ⟨rfl, rfl⟩, ?_⟩
        intro hfalse _
        rw [hdry] at hfalse
        exact absurd hfalse (by simp)
      · rename_i hdry
        split at h
        · rename_i horacle
          split at h
          · exact Except.noConfusion h
          · cases h
            refine ⟨by dsimp only; omega, map_strip_projectVmCount _ _ _, ?_, ?_⟩
            · intro htrue
              rw [htrue] at hdry
              exact absurd rfl hdry
            · intro _ hfail
              rw [horacle] at hfail
              exact absurd hfail (by simp)
          · cases h
            refine ⟨by dsimp only; omega, map_strip_projectVmCount _ _ _, ?_, ?_⟩
            · intro htrue
              rw [htrue] at hdry
              exact absurd rfl hdry
            · intro _ hfail
              rw [horacle] at hfail
              exact absurd hfail (by simp)
        · cases h
          refine ⟨by dsimp only; omega, rfl, ?_, fun _ _ => ⟨rfl, rfl⟩⟩
          intro htrue
          rw [htrue] at hdry
          exact absurd rfl hdry

/-- The loop-level consequences of balanceStep_ok_inv: the cap is an
invariant, only vm_count fields change, and a dry run leaves the submitted
list and the history as they were. -/
theorem balanceLoop_ok_inv (cfg : Config) (oracle : Nat → Bool) (now : Int)
    (vms : List VMInfo) :
    ∀ (l : List String) (s s1 : VMBalancer.LoopState),
      VMBalancer.balanceLoop cfg oracle now vms l s = .ok s1 →
      (s.performed ≤ cfg.max_migrations_per_cycle →
        s1.performed ≤ cfg.max_migrations_per_cycle)
      ∧ s1.nodes.map stripVmCount = s.nodes.map stripVmCount
      ∧ (cfg.dry_run = true → s1.submitted = s.submitted ∧ s1.hist = s.hist)
  | [], s, s1, h => by
    cases h
    exact ⟨id, rfl, fun _ => ⟨rfl, rfl⟩⟩
  | srcId :: rest, s, s1, h => by
    simp only [VMBalancer.balanceLoop] at h
    split at h
    · cases h
      exact ⟨id, rfl, fun _ => ⟨rfl, rfl⟩⟩
    · rename_i hcap
      split at h
      · exact Except.noConfusion h
      · rename_i s2 hstep
        obtain ⟨hp2, hn2, hd2, _⟩ :=
          balanceStep_ok_inv cfg oracle now vms srcId s s2 hstep
        obtain ⟨hp, hn, hd⟩ := balanceLoop_ok_inv cfg oracle now vms rest s2 s1 h
        refine ⟨?_, hn.trans hn2, ?_⟩
        · intro _
          apply hp
          omega
        · intro hdry
          obtain ⟨ha, hb⟩ := hd hdry
          obtain ⟨hc, hd'⟩ := hd2 hdry
          exact ⟨ha.trans hc, hb.trans hd'⟩

/-! ## Claim theorems -/

/-- C6: compare_qemu_versions returns true whenever either version string is
empty (the unknown-version case), extracts the leading dotted integer tuple
from each string so a suffix like -1ubuntu1 is ignored, treats a string with
no leading number as the tuple (0,), and otherwise returns true exactly when
the target tuple is lexicographically at least the source tuple. -/
theorem compare_qemu_versions_spec (s t : String) (hs : s ≠ "") (ht : t ≠ "") :
    (VMManagerAPI.compare_qemu_versions s t = true ↔
      ¬ List.Lex (· < ·) (VMManagerAPI.parse_version t) (VMManagerAPI.parse_version s))
    ∧ VMManagerAPI.compare_qemu_versions "" t = true
    ∧ VMManagerAPI.compare_qemu_versions s "" = true
    ∧ VMManagerAPI.parse_version "7.1.0-1ubuntu1" = [7, 1, 0]
    ∧ VMManagerAPI.parse_version "beta" = [0] := by
  refine ⟨?_, ?_, ?_, by decide, by decide⟩
  · simp only [VMManagerAPI.compare_qemu_versions, if_neg
      (by simp [hs, ht] : ¬ (s = "" || t = "") = true)]
    exact tupleGe_iff_not_lex _ _
  · simp [VMManagerAPI.compare_qemu_versions]
  · simp [VMManagerAPI.compare_qemu_versions]

/-- Witness for C6 at source version 6.2.0 and target version
7.1.0-1ubuntu1. -/
theorem compare_qemu_versions_spec_witness :
    (VMManagerAPI.compare_qemu_versions "6.2.0" "7.1.0-1ubuntu1" = true ↔
      ¬ List.Lex (· < ·) (VMManagerAPI.parse_version "7.1.0-1ubuntu1")
        (VMManagerAPI.parse_version "6.2.0"))
    ∧ VMManagerAPI.parse_version "7.1.0-1ubuntu1" = [7, 1, 0] :=
  ⟨(compare_qemu_versions_spec "6.2.0" "7.1.0-1ubuntu1" (by decide) (by decide)).1,
   (compare_qemu_versions_spec "6.2.0" "7.1.0-1ubuntu1" (by decide) (by decide)).2.2.2.1⟩

/-- C10: a VM record without a balancer_mode field defaults to off, so
can_vm_migrate rejects it no matter the rest of the record. -/
theorem missing_balancer_mode_blocks_migration (d : VMManagerAPI.VMData)
    (h : d.balancer_mode = none) : VMManagerAPI.can_vm_migrate d = false := by
  simp only [VMManagerAPI.can_vm_migrate, h, Option.getD_none]
  split
  · rfl
  · simp

/-- Witness for C10: an active VM with no ISO, no snapshots and no
balancer_mode field is still rejected. -/
theorem missing_balancer_mode_blocks_migration_witness :
    (VMManagerAPI.VMData.mk "vm1" (some "active") (some false) (some 0) none).balancer_mode
        = none
    ∧ VMManagerAPI.can_vm_migrate
        (VMManagerAPI.VMData.mk "vm1" (some "active") (some false) (some 0) none) = false :=
  ⟨rfl, missing_balancer_mode_blocks_migration _ rfl⟩

/-- C4 counterexample: with node a at ratio 8.0 and 10 percent memory and
node b at ratio 7.2 and 75 percent memory, find_overloaded_nodes puts b
first although its combined score 7.95 is smaller than a's 8.1 — the code
sorts by max(cpu_allocation_ratio, memory_usage_percent), not by the
combined score. -/
theorem overloaded_sort_key_not_combined_score :
    (VMBalancer.find_overloaded_nodes defaultConfig [mixNodeA, mixNodeB]).map (·.id)
        = ["b", "a"]
    ∧ specCombinedScore mixNodeB < specCombinedScore mixNodeA := by
  constructor
  · with_unfolding_all decide
  · with_unfolding_all decide

/-- C4 amended: the list of overloaded source nodes is sorted in descending
order of max(cpu_allocation_ratio, memory_usage_percent): whenever a
precedes b in the result, the maximum of b is at most the maximum of a. -/
theorem overloaded_sorted_by_max_key (cfg : Config) (nodes : List NodeInfo) :
    (VMBalancer.find_overloaded_nodes cfg nodes).Pairwise
      (fun a b => max b.cpu_allocation_ratio b.memory_usage_percent
        ≤ max a.cpu_allocation_ratio a.memory_usage_percent) := by
  simp only [VMBalancer.find_overloaded_nodes]
  refine List.Pairwise.imp (fun hab => of_decide_eq_true hab)
    (pairwise_insertionSort _ ?_ ?_ _)
  · intro a b c hab hbc
    simp only [decide_eq_true_eq] at hab hbc ⊢
    exact le_trans hbc hab
  · intro a b
    simp only [Bool.or_eq_true, decide_eq_true_eq]
    exact le_total _ _

/-- C5: when the target node reports non-zero cpu_total and memory_total_mb,
can_node_accept_vm returns ok true exactly when the estimated post-migration
CPU ratio is under cpu_overload_threshold, the estimated post-migration
memory percentage is under memory_overload_threshold, and the QEMU gate
passes — the overload thresholds, not the target thresholds. -/
theorem can_node_accept_vm_iff (cfg : Config) (nodes : List NodeInfo)
    (node : NodeInfo) (vm : VMInfo) (hcpu : node.cpu_total ≠ 0)
    (hmem : node.memory_total_mb ≠ 0) :
    VMBalancer.can_node_accept_vm cfg nodes node vm = .ok true ↔
      (((node.cpu_used : ℚ) + (vm.cpu_cores : ℚ)) / (node.cpu_total : ℚ)
          < cfg.cpu_overload_threshold
        ∧ node.memory_usage_percent
            + ((vm.memory_mb : ℚ) / (node.memory_total_mb : ℚ) * 100)
          < cfg.memory_overload_threshold
        ∧ VMBalancer.qemu_gate nodes node vm = true) := by
  simp [VMBalancer.can_node_accept_vm, hcpu, hmem, and_assoc]

/-- Witness for C5 at the S1 fixture: node B accepts VM x and both sides of
the equivalence evaluate on concrete numbers. -/
theorem can_node_accept_vm_iff_witness :
    s1NodeB.cpu_total ≠ 0 ∧ s1NodeB.memory_total_mb ≠ 0 ∧
    (VMBalancer.can_node_accept_vm defaultConfig [s1NodeA, s1NodeB] s1NodeB s1VM
        = .ok true ↔
      (((s1NodeB.cpu_used : ℚ) + (s1VM.cpu_cores : ℚ)) / (s1NodeB.cpu_total : ℚ)
          < defaultConfig.cpu_overload_threshold
        ∧ s1NodeB.memory_usage_percent
            + ((s1VM.memory_mb : ℚ) / (s1NodeB.memory_total_mb : ℚ) * 100)
          < defaultConfig.memory_overload_threshold
        ∧ VMBalancer.qemu_gate [s1NodeA, s1NodeB] s1NodeB s1VM = true)) :=
  ⟨by decide, by decide,
    can_node_accept_vm_iff defaultConfig [s1NodeA, s1NodeB] s1NodeB s1VM
      (by decide) (by decide)⟩

/-- C7: a VM with a migration_history entry at or after now minus one hour is
never the VM select_vm_for_migration returns, and when every migratable VM
on the source node has such an entry the selection returns none. -/
theorem recent_migration_suppression (hist : List (String × Int)) (now : Int)
    (vms : List VMInfo) (src : NodeInfo) (vm : VMInfo) (t : Int) :
    (VMBalancer.histLookup hist vm.id = some t → now - 3600 ≤ t →
      VMBalancer.select_vm_for_migration hist now vms src ≠ some vm)
    ∧ ((∀ v ∈ vms, v.node_id = src.id → v.can_migrate = true →
          now - 3600 ≤ VMBalancer.histGet hist v.id) →
        VMBalancer.select_vm_for_migration hist now vms src = none) := by
  constructor
  · intro hlk hle hsel
    simp only [VMBalancer.select_vm_for_migration] at hsel
    split at hsel
    · exact absurd hsel (by simp)
    · split at hsel
      · exact absurd hsel (by simp)
      · rcases List.head?_eq_some_iff.mp hsel with ⟨ys, hys⟩
        have hmem : vm ∈ insertionSort
            (fun a b => decide (VMBalancer.vmSizeKey a ≤ VMBalancer.vmSizeKey b)) _ :=
          hys ▸ List.mem_cons_self _ _
        rw [mem_insertionSort] at hmem
        have hgt := (List.mem_filter.mp hmem).2
        rw [decide_eq_true_eq] at hgt
        have : t < now - 3600 := by
          rw [VMBalancer.histGet, hlk] at hgt
          simpa using hgt
        omega
  · intro hall
    simp only [VMBalancer.select_vm_for_migration]
    split
    · rfl
    · have hnil : List.filter
          (fun vm => decide (VMBalancer.histGet hist vm.id < now - 3600))
          (List.filter (fun vm => vm.can_migrate)
            (List.filter (fun vm => vm.node_id == src.id) vms)) = [] := by
        rw [List.filter_eq_nil_iff]
        intro v hv
        have h1 := List.mem_filter.mp hv
        have h2 := List.mem_filter.mp h1.1
        have hnode : v.node_id = src.id := by
          have := h2.2
          simpa using this
        have := hall v h2.1 hnode h1.2
        simp only [decide_eq_true_eq]
        omega
      rw [hnil]
      simp

/-- Witness for C7: VM x migrated 1 second ago is not selected. -/
theorem recent_migration_suppression_witness :
    VMBalancer.histLookup [("x", 999999)] "x" = some 999999 ∧
    VMBalancer.select_vm_for_migration [("x", 999999)] 1000000 [s1VM] s1NodeA
      ≠ some s1VM :=
  ⟨by decide,
    (recent_migration_suppression [("x", 999999)] 1000000 [s1VM] s1NodeA s1VM
      999999).1 (by decide) (by decide)⟩

/-- C9: a node reporting cpu_total = 0 passes target eligibility, because
cpu_allocation_ratio is defined as 0 there, yet can_node_accept_vm divides
by cpu_total without a guard and raises ZeroDivisionError. -/
theorem zero_cpu_total_divide_error :
    VMBalancer.find_underloaded_nodes defaultConfig [zeroCpuNode] = [zeroCpuNode]
    ∧ zeroCpuNode.cpu_allocation_ratio = 0
    ∧ VMBalancer.can_node_accept_vm defaultConfig [zeroCpuNode] zeroCpuNode zeroCpuVM
        = .error "ZeroDivisionError" := by
  refine ⟨by with_unfolding_all decide, by with_unfolding_all decide,
    by with_unfolding_all decide⟩

/-- C1: the number of migrations balance_cluster performs, real or
simulated, never exceeds max_migrations_per_cycle: the loop breaks at the
cap and every iteration adds at most one. -/
theorem balance_cluster_respects_migration_cap (cfg : Config)
    (oracle : Nat → Bool) (now : Int) (clusterNodes : List NodeInfo)
    (vms : List VMInfo) (hist : List (String × Int))
    (r : VMBalancer.BalanceResult)
    (h : VMBalancer.balance_cluster cfg oracle now clusterNodes vms hist = .ok r) :
    r.performed ≤ cfg.max_migrations_per_cycle := by
  simp only [VMBalancer.balance_cluster] at h
  split at h
  · cases h
    exact Nat.zero_le _
  · split at h
    · exact Except.noConfusion h
    · rename_i s heq
      cases h
      exact (balanceLoop_ok_inv cfg oracle now vms _ _ s heq).1 (Nat.zero_le _)

/-- Witness for C1 at the S1 fixture in dry-run mode: one migration is
simulated and the cap of 1 is respected. -/
theorem balance_cluster_cap_witness :
    VMBalancer.balance_cluster dryConfig (fun _ => true) 1000000
        [s1NodeA, s1NodeB] [s1VM] []
      = .ok ⟨1, [s1NodeA0, s1NodeB1], [], []⟩
    ∧ (1 : Nat) ≤ dryConfig.max_migrations_per_cycle := by
  have heq : VMBalancer.balance_cluster dryConfig (fun _ => true) 1000000
      [s1NodeA, s1NodeB] [s1VM] [] = .ok ⟨1, [s1NodeA0, s1NodeB1], [], []⟩ := by
    with_unfolding_all decide
  exact ⟨heq, balance_cluster_respects_migration_cap dryConfig (fun _ => true)
    1000000 [s1NodeA, s1NodeB] [s1VM] [] ⟨1, [s1NodeA0, s1NodeB1], [], []⟩ heq⟩

/-- C2 counterexample: in scenario S1 (node A at ratio 8.0 holding VM x of
2 vCPUs, node B empty, dry run), the simulated migration leaves A's cpu_used
at 8 and its cpu_allocation_ratio at 8.0, not at the claimed 6.0: the
projection does not subtract the VM's cpu_cores or memory_mb. -/
theorem projection_leaves_cpu_used_unchanged :
    (VMBalancer.balance_cluster dryConfig (fun _ => true) 1000000
        [s1NodeA, s1NodeB] [s1VM] []).map
      (fun r => (r.performed,
        (VMBalancer.getNode r.nodes "A").cpu_used,
        (VMBalancer.getNode r.nodes "A").cpu_allocation_ratio,
        (VMBalancer.getNode r.nodes "A").memory_used_mb))
      = .ok (1, 8, 8, 40)
    ∧ (8 : ℚ) ≠ 6 := by
  exact ⟨by with_unfolding_all decide, by decide⟩

/-- C2 amended: after every successful (real or simulated) migration the
projection updates only the vm_count fields (source minus one, target plus
one); cpu_used and memory_used_mb, and every other field, of every node are
unchanged, so in scenario S1 the source node keeps cpu_allocation_ratio
8.0. -/
theorem projection_updates_only_vm_count (cfg : Config) (oracle : Nat → Bool)
    (now : Int) (clusterNodes : List NodeInfo) (vms : List VMInfo)
    (hist : List (String × Int)) (r : VMBalancer.BalanceResult)
    (h : VMBalancer.balance_cluster cfg oracle now clusterNodes vms hist = .ok r) :
    r.nodes.map stripVmCount = clusterNodes.map stripVmCount := by
  simp only [VMBalancer.balance_cluster] at h
  split at h
  · cases h
    rfl
  · split at h
    · exact Except.noConfusion h
    · rename_i s heq
      cases h
      exact (balanceLoop_ok_inv cfg oracle now vms _ _ s heq).2.1

/-- Witness for C2 amended at the S1 fixture: the result nodes differ from
the inputs only in vm_count. -/
theorem projection_updates_only_vm_count_witness :
    VMBalancer.balance_cluster dryConfig (fun _ => true) 1000000
        [s1NodeA, s1NodeB] [s1VM] []
      = .ok ⟨1, [s1NodeA0, s1NodeB1], [], []⟩
    ∧ [s1NodeA0, s1NodeB1].map stripVmCount
        = [s1NodeA, s1NodeB].map stripVmCount := by
  have heq : VMBalancer.balance_cluster dryConfig (fun _ => true) 1000000
      [s1NodeA, s1NodeB] [s1VM] [] = .ok ⟨1, [s1NodeA0, s1NodeB1], [], []⟩ := by
    with_unfolding_all decide
  exact ⟨heq, projection_updates_only_vm_count dryConfig (fun _ => true)
    1000000 [s1NodeA, s1NodeB] [s1VM] [] ⟨1, [s1NodeA0, s1NodeB1], [], []⟩ heq⟩

/-- C8: in dry-run mode balance_cluster makes no migrate_vm call and leaves
the migration history unchanged (there is no blacklist in vm_balancer.py to
touch), and in scenario S1 it still counts the simulated migration and
applies the vm_count projection. -/
theorem dry_run_purity :
    (∀ (cfg : Config) (oracle : Nat → Bool) (now : Int)
      (clusterNodes : List NodeInfo) (vms : List VMInfo)
      (hist : List (String × Int)) (r : VMBalancer.BalanceResult),
      cfg.dry_run = true →
      VMBalancer.balance_cluster cfg oracle now clusterNodes vms hist = .ok r →
      r.submitted = [] ∧ r.hist = hist)
    ∧ (VMBalancer.balance_cluster dryConfig (fun _ => true) 1000000
        [s1NodeA, s1NodeB] [s1VM] []).map
        (fun r => (r.performed, (VMBalancer.getNode r.nodes "A").vm_count,
          (VMBalancer.getNode r.nodes "B").vm_count, r.submitted, r.hist))
        = .ok (1, 0, 1, [], []) := by
  constructor
  · intro cfg oracle now clusterNodes vms hist r hdry h
    simp only [VMBalancer.balance_cluster] at h
    split at h
    · cases h
      exact ⟨rfl, rfl⟩
    · split at h
      · exact Except.noConfusion h
      · rename_i s heq
        cases h
        exact (balanceLoop_ok_inv cfg oracle now vms _ _ s heq).2.2 hdry
  · with_unfolding_all decide

/-- Witness for C8 at the S1 fixture. -/
theorem dry_run_purity_witness :
    dryConfig.dry_run = true
    ∧ VMBalancer.balance_cluster dryConfig (fun _ => true) 1000000
        [s1NodeA, s1NodeB] [s1VM] []
      = .ok ⟨1, [s1NodeA0, s1NodeB1], [], []⟩
    ∧ ([] : List (String × String)) = [] ∧ ([] : List (String × Int)) = [] := by
  have heq : VMBalancer.balance_cluster dryConfig (fun _ => true) 1000000
      [s1NodeA, s1NodeB] [s1VM] [] = .ok ⟨1, [s1NodeA0, s1NodeB1], [], []⟩ := by
    with_unfolding_all decide
  exact ⟨rfl, heq, dry_run_purity.1 dryConfig (fun _ => true) 1000000
    [s1NodeA, s1NodeB] [s1VM] [] ⟨1, [s1NodeA0, s1NodeB1], [], []⟩ rfl heq⟩

/-- C3 counterexample: when the migration of VM x fails at time 1000000, the
monolithic balancer records nothing (it has no blacklist), and a cycle 10
seconds later — well within any H_fail window — submits the migration of x
again. -/
theorem failed_migration_retried_immediately :
    (VMBalancer.balance_cluster defaultConfig (fun _ => false) 1000000
        [s1NodeA, s1NodeB] [s1VM] []).map
      (fun r => (r.performed, r.hist, r.submitted)) = .ok (0, [], [("x", "B")])
    ∧ (VMBalancer.balance_cluster defaultConfig (fun _ => false) 1000010
        [s1NodeA, s1NodeB] [s1VM] []).map (fun r => r.submitted)
      = .ok [("x", "B")] := by
  exact ⟨by with_unfolding_all decide, by with_unfolding_all decide⟩

/-- C3 amended: on a failed or timed-out migration the monolithic
balance_cluster does not increment the performed count and leaves the
history unchanged, but records no blacklist entry; the modular
MigrationStrategy is what records the failure time, and its selection skips
any VM whose blacklist entry is within H_fail of now. -/
theorem failure_handling_amended :
    (∀ (cfg : Config) (oracle : Nat → Bool) (now : Int) (vms : List VMInfo)
      (srcId : String) (s s1 : VMBalancer.LoopState),
      cfg.dry_run = false → oracle s.submitted.length = false →
      VMBalancer.balanceStep cfg oracle now vms srcId s = .ok s1 →
      s1.performed = s.performed ∧ s1.hist = s.hist)
    ∧ (∀ (blacklist : List (String × Int)) (vm_id : String) (now : Int),
        VMBalancer.histLookup
          (MigrationStrategy.record_migration_failure blacklist vm_id now) vm_id
          = some now)
    ∧ (∀ (hist blacklist : List (String × Int)) (now : Int)
        (vms : List VMInfo) (src : NodeInfo) (vm : VMInfo) (t : Int),
        VMBalancer.histLookup blacklist vm.id = some t →
        now - 3600 * MigrationStrategy.MIGRATION_BLACKLIST_RETENTION_HOURS ≤ t →
        MigrationStrategy.select_vm_for_migration hist blacklist now vms src
          ≠ some vm) := by
  refine ⟨?_, ?_, ?_⟩
  · intro cfg oracle now vms srcId s s1 hdry horacle h
    exact (balanceStep_ok_inv cfg oracle now vms srcId s s1 h).2.2.2 hdry horacle
  · intro blacklist vm_id now
    simp [MigrationStrategy.record_migration_failure, VMBalancer.histLookup,
      List.find?]
  · intro hist blacklist now vms src vm t hlk hle hsel
    simp only [MigrationStrategy.select_vm_for_migration] at hsel
    split at hsel
    · exact absurd hsel (by simp)
    · split at hsel
      · exact absurd hsel (by simp)
      · split at hsel
        · exact absurd hsel (by simp)
        · rcases List.head?_eq_some_iff.mp hsel with ⟨ys, hys⟩
          have hmem : vm ∈ insertionSort
              (fun a b =>
                decide (VMBalancer.vmSizeKey a ≤ VMBalancer.vmSizeKey b)) _ :=
            hys ▸ List.mem_cons_self _ _
          rw [mem_insertionSort] at hmem
          have hgt := (List.mem_filter.mp hmem).2
          rw [decide_eq_true_eq] at hgt
          have : t < now - 3600 * MigrationStrategy.MIGRATION_BLACKLIST_RETENTION_HOURS := by
            rw [VMBalancer.histGet, hlk] at hgt
            simpa using hgt
          omega

/-- Witness for C3 amended: the failing S1 step keeps performed and history,
a recorded failure is found in the blacklist, and a VM blacklisted 1 second
ago is not selected. -/
theorem failure_handling_amended_witness :
    defaultConfig.dry_run = false
    ∧ VMBalancer.balanceStep defaultConfig (fun _ => false) 1000000 [s1VM] "A"
        ⟨0, [s1NodeA, s1NodeB], ["B"], [], []⟩
      = .ok ⟨0, [s1NodeA, s1NodeB], ["B"], [], [("x", "B")]⟩
    ∧ ((0 : Nat) = 0 ∧ ([] : List (String × Int)) = [])
    ∧ VMBalancer.histLookup
        (MigrationStrategy.record_migration_failure [] "x" 999999) "x"
        = some 999999
    ∧ MigrationStrategy.select_vm_for_migration [] [("x", 999999)] 1000000
        [s1VM] s1NodeA ≠ some s1VM := by
  have heq : VMBalancer.balanceStep defaultConfig (fun _ => false) 1000000
      [s1VM] "A" ⟨0, [s1NodeA, s1NodeB], ["B"], [], []⟩
      = .ok ⟨0, [s1NodeA, s1NodeB], ["B"], [], [("x", "B")]⟩ := by
    with_unfolding_all decide
  refine ⟨rfl, heq, ?_, ?_, ?_⟩
  · exact failure_handling_amended.1 defaultConfig (fun _ => false) 1000000
      [s1VM] "A" ⟨0, [s1NodeA, s1NodeB], ["B"], [], []⟩
      ⟨0, [s1NodeA, s1NodeB], ["B"], [], [("x", "B")]⟩ rfl rfl heq
  · exact failure_handling_amended.2.1 [] "x" 999999
  · exact failure_handling_amended.2.2 [] [("x", 999999)] 1000000 [s1VM]
      s1NodeA s1VM 999999 (by decide) (by decide)

end VMB
